import Mathlib

/-!
Verification of the structured, context-aware, asynchronous logging pipeline
implemented in `src/app/utils/hp_py_logger.py` (with its configuration glue in
`src/app/core/config.py`).  The Python code is shallowly embedded: pure pieces
become Lean functions, the contextvar store and the pipeline controller become
explicit state passing, and fallible operations (HTTP post, DB insert, object
upload, handler construction) become `Except`-valued parameters so that the
try/except structure of the source is visible in the embedding.
-/

/-! ## Log levels (Python `logging` numeric levels) -/

def DEBUG : Nat := 10
def INFO : Nat := 20
def WARNING : Nat := 30
def ERROR : Nat := 40
def CRITICAL : Nat := 50

/-! ## Python string helpers

`pythonTruthy` models Python truthiness of a string (`if p:` keeps only
non-empty strings).  `strContains hay pat` models Python `pat in hay`
(substring containment; the empty pattern is contained in everything).
`pyStrip` models `str.strip()` (on the ASCII whitespace the config values
use), and `splitCommaChars` models `str.split(",")`. -/

def pythonTruthy (s : String) : Bool := !(s == "")

def charsStartWith : List Char → List Char → Bool
  | [], _ => true
  | _ :: _, [] => false
  | a :: ps, b :: hs => a == b && charsStartWith ps hs

def charsContain (hay pat : List Char) : Bool :=
  match hay with
  | [] => pat.isEmpty
  | _ :: rest => charsStartWith pat hay || charsContain rest pat

def strContains (hay pat : String) : Bool := charsContain hay.data pat.data

def isSpaceChar (c : Char) : Bool :=
  c == ' ' || c == '\t' || c == '\n' || c == '\r'

def dropSpacesLeft : List Char → List Char
  | [] => []
  | c :: rest => if isSpaceChar c then dropSpacesLeft rest else c :: rest

def stripChars (l : List Char) : List Char :=
  (dropSpacesLeft (dropSpacesLeft l.reverse).reverse)

def pyStrip (s : String) : String := String.mk (stripChars s.data)

def splitCommaChars : List Char → List Char → List (List Char)
  | cur, [] => [cur.reverse]
  | cur, c :: rest =>
    if c == ',' then cur.reverse :: splitCommaChars [] rest
    else splitCommaChars (c :: cur) rest

/-! ## Context store (`contextvars`, lines 36-60)

`_REQUEST_CTX` holds, per execution unit (thread/task), a dict read only
through `.get(key)` for the five `CONTEXT_KEYS`; we model it as a structure of
`Option String` fields (a key explicitly set to Python `None` is
indistinguishable from an absent key under `.get`).  `set_request_context`
merges keyword arguments into a fresh dict (`{**cur, **kwargs}`); a keyword
argument may be absent or given (with a possibly-`None` value), modelled by
`KwArg`. -/

structure Ctx where
  request_id : Option String
  user : Option String
  method : Option String
  path : Option String
  ip : Option String
deriving DecidableEq

def Ctx.empty : Ctx := ⟨none, none, none, none, none⟩

inductive KwArg where
  | absent
  | given (v : Option String)
deriving DecidableEq

def KwArg.mergeInto (old : Option String) : KwArg → Option String
  | .absent => old
  | .given v => v

structure CtxPatch where
  request_id : KwArg
  user : KwArg
  method : KwArg
  path : KwArg
  ip : KwArg
deriving DecidableEq

def Ctx.merge (c : Ctx) (p : CtxPatch) : Ctx :=
  { request_id := p.request_id.mergeInto c.request_id
    user := p.user.mergeInto c.user
    method := p.method.mergeInto c.method
    path := p.path.mergeInto c.path
    ip := p.ip.mergeInto c.ip }

/-! ## Log records and the record factory (lines 63-97)

The factory installed by `_install_record_factory` copies the current context
snapshot into the freshly created record: for each of the five context keys it
sets the record attribute to `ctx.get(key)` (a fresh `LogRecord` has none of
these attributes, so the `getattr(record, key, None)` fallback yields `None`,
i.e. the record field always equals the context field).  Static attributes
env/service/host are stamped as well. -/

structure StaticAttrs where
  env : String
  service : String
  host : String
deriving DecidableEq

structure Record where
  name : String
  levelno : Nat
  msg : String
  request_id : Option String
  user : Option String
  method : Option String
  path : Option String
  ip : Option String
  env : String
  service : String
  host : String
deriving DecidableEq

def record_factory (ctx : Ctx) (sa : StaticAttrs) (name : String)
    (levelno : Nat) (msg : String) : Record :=
  { name := name, levelno := levelno, msg := msg
    request_id := ctx.request_id, user := ctx.user, method := ctx.method
    path := ctx.path, ip := ctx.ip
    env := sa.env, service := sa.service, host := sa.host }

/-- The "unknown" sentinel a missing context key resolves to: Python `None`
(rendered as `null` by `JSONFormatter`). -/
def unknownSentinel : Option String := none

/-- The whole per-process logging state relevant to context isolation: the
contextvar store (one `Ctx` per execution unit `U`, default empty, as for
`_REQUEST_CTX` whose default is `{}`) and the immutable records created so
far. -/
structure LogSys (U : Type) where
  store : U → Ctx
  records : List Record

def initialSys (U : Type) : LogSys U := ⟨fun _ => Ctx.empty, []⟩

/-- `set_request_context` (lines 46-52) for execution unit `u`. -/
def set_request_context {U : Type} [DecidableEq U] (s : LogSys U) (u : U)
    (p : CtxPatch) : LogSys U :=
  { s with store := fun v => if v = u then (s.store u).merge p else s.store v }

/-- `clear_request_context` (lines 59-60) for execution unit `u`. -/
def clear_request_context {U : Type} [DecidableEq U] (s : LogSys U) (u : U) :
    LogSys U :=
  { s with store := fun v => if v = u then Ctx.empty else s.store v }

/-- A log call in execution unit `u`: the record factory runs synchronously in
`u` and snapshots `u`'s current context into the new record. -/
def emitRecord {U : Type} (s : LogSys U) (u : U) (sa : StaticAttrs)
    (name : String) (levelno : Nat) (msg : String) : LogSys U × Record :=
  let r := record_factory (s.store u) sa name levelno msg
  ({ s with records := s.records ++ [r] }, r)

/-- `r` carries some context value of `c`: one of the five context fields of
`r` equals the corresponding field of `c`, and that field of `c` is actually
set. -/
def Record.carriesValueOf (r : Record) (c : Ctx) : Bool :=
  (c.request_id.isSome && decide (r.request_id = c.request_id)) ||
  (c.user.isSome && decide (r.user = c.user)) ||
  (c.method.isSome && decide (r.method = c.method)) ||
  (c.path.isSome && decide (r.path = c.path)) ||
  (c.ip.isSome && decide (r.ip = c.ip))

/-- Two contexts are (fully) distinct when they differ on every field. -/
def Ctx.allFieldsDiffer (c d : Ctx) : Bool :=
  decide (c.request_id ≠ d.request_id) && decide (c.user ≠ d.user) &&
  decide (c.method ≠ d.method) && decide (c.path ≠ d.path) &&
  decide (c.ip ≠ d.ip)

/-! ## Filters (lines 143-162) and handler-side delivery

`BelowWarningFilter` passes records strictly below WARNING.
`ExcludePathsFilter.__init__` keeps only truthy patterns
(`[p for p in patterns if p]`); its `filter` drops a record when any stored
pattern occurs in the formatted message or in a truthy `record.path`
(`(s in msg) or (path and s in path)`).  Delivery of a dequeued record to a
handler follows `QueueListener.handle` with `respect_handler_level=True`
(forward only when `record.levelno >= handler.level`) composed with
`logging.Handler.handle` (emit only when every attached filter passes). -/

def excludeStoredPatterns (patterns : List String) : List String :=
  patterns.filter (fun p => pythonTruthy p)

def excludeHas (msg : String) (path : Option String) (p : String) : Bool :=
  strContains msg p ||
    (match path with
     | none => false
     | some pa => pythonTruthy pa && strContains pa p)

def excludeFilterVerdict (stored : List String) (r : Record) : Bool :=
  !(stored.any (excludeHas r.msg r.path))

inductive LogFilter where
  | belowWarning
  | excludeOf (stored : List String)
deriving DecidableEq

def LogFilter.check : LogFilter → Record → Bool
  | .belowWarning, r => decide (r.levelno < WARNING)
  | .excludeOf ps, r => excludeFilterVerdict ps r

structure Handler where
  level : Nat
  filters : List LogFilter
deriving DecidableEq

def Handler.delivers (h : Handler) (r : Record) : Bool :=
  decide (h.level ≤ r.levelno) && h.filters.all (fun f => f.check r)

/-- `exclude_paths` as produced by `Settings.logging_defaults`
(config.py line 91 / hp_py_logger.py line 427):
`[p.strip() for p in raw.split(",") if p.strip()]`. -/
def parseExcludePaths (raw : String) : List String :=
  ((splitCommaChars [] raw.data).map (fun l => String.mk (stripChars l))).filter
    (fun p => pythonTruthy p)

/-- The access-tier file handler built by `init_logging` (lines 492-497):
level = root level, filters = below-WARNING and path exclusion. -/
def accessFileHandler (rootLevel : Nat) (excludePatterns : List String) :
    Handler :=
  { level := rootLevel
    filters := [LogFilter.belowWarning,
                LogFilter.excludeOf (excludeStoredPatterns excludePatterns)] }

/-- The error-tier file handler built by `init_logging` (lines 499-502):
level = WARNING, no filters. -/
def errorFileHandler : Handler := { level := WARNING, filters := [] }

/-! ## The dispatcher queue (lines 544-547)

Python `queue.Queue(maxsize)` treats `maxsize <= 0` as infinite capacity;
`QueueHandler.enqueue` calls `put_nowait`, which raises `queue.Full` exactly
when the queue is bounded and at capacity, and never blocks.
`init_logging` constructs the queue as `queue.Queue(-1)`. -/

structure PyQueue (α : Type) where
  maxsize : Int
  items : List α

def PyQueue.isBounded {α : Type} (q : PyQueue α) : Bool := decide (0 < q.maxsize)

def PyQueue.full {α : Type} (q : PyQueue α) : Bool :=
  decide (0 < q.maxsize) && decide (q.maxsize ≤ (q.items.length : Int))

def PyQueue.put_nowait {α : Type} (q : PyQueue α) (x : α) :
    Except String (PyQueue α) :=
  if q.full then Except.error "queue.Full"
  else Except.ok { q with items := q.items ++ [x] }

def log_queue_maxsize : Int := -1

def mkLogQueue : PyQueue Record := { maxsize := log_queue_maxsize, items := [] }

/-! ## Optional sink construction in `init_logging` (lines 467-542)

`handlers` starts with the stdout handler (if enabled) and the two file
handlers (if enabled).  Each optional sink (Loki, DB, MinIO) is then appended
inside its own `try: ... except Exception: pass` block, and the Loki/DB blocks
are additionally guarded by the presence of their URL parameter; a failed
constructor (modelled as an `Except.error` argument) therefore silently omits
the sink instead of aborting.  No exception escapes this section, so the
outcome of the sink-building phase is always a success carrying the handler
list. -/

inductive SinkKind where
  | stdout
  | accessFile
  | errorFile
  | loki
  | db
  | minio
deriving DecidableEq

structure SinkSettings where
  to_stdout : Bool
  to_file : Bool
  loki_enable : Bool
  loki_url : Option String
  log_db_enable : Bool
  log_db_url : Option String
  minio_enable : Bool
deriving DecidableEq

def baseHandlers (s : SinkSettings) : List SinkKind :=
  (if s.to_stdout then [SinkKind.stdout] else []) ++
    (if s.to_file then [SinkKind.accessFile, SinkKind.errorFile] else [])

/-- Lines 504-514: `if loki_enable and loki_url: try: append(LokiHTTPHandler(...)) except Exception: pass`. -/
def appendLoki (s : SinkSettings) (lokiCtor : Except String Unit)
    (hs : List SinkKind) : List SinkKind :=
  if s.loki_enable && s.loki_url.isSome then
    match lokiCtor with
    | Except.ok _ => hs ++ [SinkKind.loki]
    | Except.error _ => hs
  else hs

/-- Lines 516-524: same pattern for the DB sink (`DBHandler.__init__` raises
when SQLAlchemy is missing or the DDL fails; the exception is swallowed). -/
def appendDb (s : SinkSettings) (dbCtor : Except String Unit)
    (hs : List SinkKind) : List SinkKind :=
  if s.log_db_enable && s.log_db_url.isSome then
    match dbCtor with
    | Except.ok _ => hs ++ [SinkKind.db]
    | Except.error _ => hs
  else hs

/-- Lines 526-542: same pattern for the MinIO sink (no URL guard, only the
enable flag). -/
def appendMinio (s : SinkSettings) (minioCtor : Except String Unit)
    (hs : List SinkKind) : List SinkKind :=
  if s.minio_enable then
    match minioCtor with
    | Except.ok _ => hs ++ [SinkKind.minio]
    | Except.error _ => hs
  else hs

def init_logging_handlers (s : SinkSettings)
    (lokiCtor dbCtor minioCtor : Except String Unit) : List SinkKind :=
  appendMinio s minioCtor (appendDb s dbCtor (appendLoki s lokiCtor (baseHandlers s)))

/-- Outcome of the sink-building phase of `init_logging`: since every optional
constructor call sits inside `except Exception: pass`, the phase always
completes and yields the accumulated handler list. -/
def init_logging_outcome (s : SinkSettings)
    (lokiCtor dbCtor minioCtor : Except String Unit) :
    Except String (List SinkKind) :=
  Except.ok (init_logging_handlers s lokiCtor dbCtor minioCtor)

def c3Settings : SinkSettings :=
  { to_stdout := true, to_file := false
    loki_enable := true, loki_url := some "http://loki:3100/loki/api/v1/push"
    log_db_enable := false, log_db_url := none
    minio_enable := false }

/-! ## MinioBatchHandler (lines 272-352)

Buffer state plus ghost counters for upload attempts and successes.  `emit`
appends the formatted line under the lock and flushes when
`len(buf) >= flush_lines` or the time trigger fires (`flush_secs` elapsed,
abstracted as a boolean per event); `_flush_locked` attempts `put_object`
(outcome injected as an `Except`) and clears the buffer on success and on
failure alike; `close` flushes whatever remains. -/

structure MinioCfg where
  flush_lines : Nat
deriving DecidableEq

structure MinioState where
  buf : List String
  seq : Nat
  uploads : Nat
  succeeded : Nat
deriving DecidableEq

def MinioState.initial : MinioState := ⟨[], 0, 0, 0⟩

def minioShouldFlush (cfg : MinioCfg) (st : MinioState) (timeTrigger : Bool) :
    Bool :=
  decide (cfg.flush_lines ≤ st.buf.length) || timeTrigger

def minioFlush (st : MinioState) (upload : Except String Unit) : MinioState :=
  if st.buf = [] then st
  else
    match upload with
    | Except.ok _ =>
        { buf := [], seq := st.seq + 1, uploads := st.uploads + 1
          succeeded := st.succeeded + 1 }
    | Except.error _ =>
        { st with buf := [], uploads := st.uploads + 1 }

def minioEmit (cfg : MinioCfg) (st : MinioState) (line : String)
    (timeTrigger : Bool) (upload : Except String Unit) : MinioState :=
  let st1 := { st with buf := st.buf ++ [line] }
  if minioShouldFlush cfg st1 timeTrigger then minioFlush st1 upload else st1

def minioClose (st : MinioState) (upload : Except String Unit) : MinioState :=
  minioFlush st upload

structure MinioEvent where
  line : String
  timeTrigger : Bool
  upload : Except String Unit

def minioRun (cfg : MinioCfg) (st : MinioState) (evs : List MinioEvent) :
    MinioState :=
  evs.foldl (fun s e => minioEmit cfg s e.line e.timeTrigger e.upload) st

/-! ## Sink `emit` bodies never raise (C8)

Each sink's `emit` wraps its entire body in `try: ... except Exception: pass`,
so whatever the injected failures do, the call returns normally.  The
dispatch loop (`QueueListener` forwarding a dequeued record to each handler in
turn) therefore reaches every sink. -/

/-- `LokiHTTPHandler.emit` (lines 194-206): format, POST with bounded timeout;
a status >= 400 response is dropped silently, any exception is swallowed. -/
def lokiEmitResult (fmt : Except String String)
    (post : String → Except String Nat) : Except String Unit :=
  match fmt with
  | Except.error _ => Except.ok ()
  | Except.ok line =>
    match post line with
    | Except.error _ => Except.ok ()
    | Except.ok status => if 400 ≤ status then Except.ok () else Except.ok ()

/-- `DBHandler.emit` (lines 247-269): build the row and insert; any exception
(including a failed insert) is swallowed. -/
def dbEmitResult (insertRow : Except String Unit) : Except String Unit :=
  match insertRow with
  | Except.ok _ => Except.ok ()
  | Except.error _ => Except.ok ()

/-- `MinioBatchHandler.emit` (lines 337-345): a formatting failure is
swallowed (record dropped), otherwise the buffered-emit step runs (which
itself swallows upload failures). -/
def minioEmitResult (cfg : MinioCfg) (st : MinioState)
    (fmt : Except String String) (timeTrigger : Bool)
    (upload : Except String Unit) : Except String MinioState :=
  match fmt with
  | Except.error _ => Except.ok st
  | Except.ok line => Except.ok (minioEmit cfg st line timeTrigger upload)

/-- The dispatch loop over the configured sinks: forward the record to each
sink's `emit` in order, stopping only if one of them raises; returns the
number of sinks reached. -/
def dispatchCount : List (Record → Except String Unit) → Record →
    Except String Nat
  | [], _ => Except.ok 0
  | e :: rest, r =>
    match e r with
    | Except.ok _ =>
      match dispatchCount rest r with
      | Except.ok n => Except.ok (n + 1)
      | Except.error msg => Except.error msg
    | Except.error msg => Except.error msg

/-! ## Pipeline controller lifecycle (lines 368-384, 544-583)

`init_logging` is guarded by the `logging._hp_logger_installed` flag: once set
it returns the `"app"` logger immediately, starting no new listener and
building no new handlers.  `_shutdown_logging` is a no-op when
`_listener_bundle` is `None` (init never ran, or a previous shutdown already
cleared it); otherwise it stops the listener and calls `close()` on each
bundled handler inside `try: ... except Exception: pass`, then clears the
bundle. -/

structure PipelineState where
  installed : Bool
  bundle : Option (List Nat)
  workersStarted : Nat
deriving DecidableEq

def PipelineState.fresh : PipelineState := ⟨false, none, 0⟩

/-- `init_logging` reduced to its lifecycle effect: the idempotency guard and
the construction of the bundle and the background listener.  Returns the new
state and the name of the returned logger. -/
def init_logging_step (s : PipelineState) (handlers : List Nat) :
    PipelineState × String :=
  if s.installed then (s, "app")
  else
    ({ installed := true, bundle := some handlers
       workersStarted := s.workersStarted + 1 }, "app")

/-- Outcome of one `h.close()` call, failure injected via `closeFails`. -/
def closeOutcome (closeFails : Nat → Bool) (h : Nat) : Except String Unit :=
  if closeFails h then Except.error "close failed" else Except.ok ()

/-- The `for h in handlers: try: h.close() except Exception: pass` loop
(lines 577-581); returns the list of handlers whose close was attempted. -/
def closeAllLoop (closeFails : Nat → Bool) : List Nat → List Nat
  | [] => []
  | h :: rest =>
    match closeOutcome closeFails h with
    | Except.ok _ => h :: closeAllLoop closeFails rest
    | Except.error _ => h :: closeAllLoop closeFails rest

/-- `_shutdown_logging` (lines 572-583): returns the new state and the list of
close attempts performed. -/
def shutdown_logging (s : PipelineState) (closeFails : Nat → Bool) :
    PipelineState × List Nat :=
  match s.bundle with
  | none => ({ s with bundle := none }, [])
  | some hs => ({ s with bundle := none }, closeAllLoop closeFails hs)

/-! ## Concrete sample data used by witnesses and counterexamples -/

def sampleRecord : Record :=
  { name := "app", levelno := 20, msg := "hello"
    request_id := none, user := none, method := none, path := none, ip := none
    env := "dev", service := "app", host := "h" }

def blankPatternRecord : Record :=
  { name := "app", levelno := 50, msg := "db down"
    request_id := none, user := none, method := none, path := none, ip := none
    env := "dev", service := "app", host := "h" }

def wCtxA : Ctx :=
  ⟨some "r1", some "alice", some "GET", some "/a", some "1.1.1.1"⟩

def wCtxB : Ctx :=
  ⟨some "r2", some "bob", some "POST", some "/b", some "2.2.2.2"⟩

def wSys : LogSys Nat := ⟨fun u => if u = 0 then wCtxA else wCtxB, []⟩

def wSA : StaticAttrs := ⟨"dev", "app", "host1"⟩

def wPatch : CtxPatch :=
  ⟨KwArg.given (some "r3"), KwArg.absent, KwArg.absent, KwArg.absent,
   KwArg.absent⟩

def wAccessRecord : Record :=
  { name := "app", levelno := 40, msg := "GET /health"
    request_id := some "r1", user := none, method := some "GET"
    path := some "/health", ip := some "127.0.0.1"
    env := "dev", service := "app", host := "h" }

def wMinioCfg : MinioCfg := ⟨2⟩

def wMinioEvs : List MinioEvent :=
  [⟨"l1", false, Except.ok ()⟩, ⟨"l2", false, Except.error "minio down"⟩]

def noUrlSettings : SinkSettings :=
  { to_stdout := true, to_file := true
    loki_enable := true, loki_url := none
    log_db_enable := true, log_db_url := none
    minio_enable := false }

def wPipeState : PipelineState := ⟨true, some [5], 3⟩

def exceptOk {ε α : Type} : Except ε α → Bool
  | Except.ok _ => true
  | Except.error _ => false

def failingPost : String → Except String Nat :=
  fun _ => Except.error "connection refused"

def okSink : Record → Except String Unit := fun _ => Except.ok ()

def allClosesFail : Nat → Bool := fun _ => true

def noClosesFail : Nat → Bool := fun _ => false

/-! ## Helper lemmas -/

theorem mem_excludeStored {p : String} {ps : List String} (hp : p ∈ ps)
    (ht : pythonTruthy p = true) : p ∈ excludeStoredPatterns ps := by
  unfold excludeStoredPatterns
  exact List.mem_filter.mpr ⟨hp, ht⟩

theorem parseExcludePaths_truthy {p : String} {raw : String}
    (hp : p ∈ parseExcludePaths raw) : pythonTruthy p = true :=
  (List.mem_filter.mp hp).2

theorem excludeVerdict_false {p : String} {stored : List String} {r : Record}
    (hp : p ∈ stored) (hm : excludeHas r.msg r.path p = true) :
    excludeFilterVerdict stored r = false := by
  unfold excludeFilterVerdict
  simp only [Bool.not_eq_false', List.any_eq_true]
  exact ⟨p, hp, hm⟩

theorem loki_notMem_base (s : SinkSettings) : SinkKind.loki ∉ baseHandlers s := by
  unfold baseHandlers
  cases hA : s.to_stdout <;> cases hB : s.to_file <;> simp

theorem db_notMem_base (s : SinkSettings) : SinkKind.db ∉ baseHandlers s := by
  unfold baseHandlers
  cases hA : s.to_stdout <;> cases hB : s.to_file <;> simp

theorem minio_notMem_base (s : SinkSettings) : SinkKind.minio ∉ baseHandlers s := by
  unfold baseHandlers
  cases hA : s.to_stdout <;> cases hB : s.to_file <;> simp

theorem mem_appendLoki {x : SinkKind} {s : SinkSettings}
    {c : Except String Unit} {hs : List SinkKind}
    (hx : x ∈ appendLoki s c hs) : x ∈ hs ∨ x = SinkKind.loki := by
  unfold appendLoki at hx
  split at hx
  · cases c with
    | ok v => simpa using hx
    | error e => exact Or.inl hx
  · exact Or.inl hx

theorem mem_appendDb {x : SinkKind} {s : SinkSettings}
    {c : Except String Unit} {hs : List SinkKind}
    (hx : x ∈ appendDb s c hs) : x ∈ hs ∨ x = SinkKind.db := by
  unfold appendDb at hx
  split at hx
  · cases c with
    | ok v => simpa using hx
    | error e => exact Or.inl hx
  · exact Or.inl hx

theorem mem_appendMinio {x : SinkKind} {s : SinkSettings}
    {c : Except String Unit} {hs : List SinkKind}
    (hx : x ∈ appendMinio s c hs) : x ∈ hs ∨ x = SinkKind.minio := by
  unfold appendMinio at hx
  split at hx
  · cases c with
    | ok v => simpa using hx
    | error e => exact Or.inl hx
  · exact Or.inl hx

theorem appendLoki_error (s : SinkSettings) (e : String) (hs : List SinkKind) :
    appendLoki s (Except.error e) hs = hs := by
  unfold appendLoki
  split <;> rfl

theorem appendDb_error (s : SinkSettings) (e : String) (hs : List SinkKind) :
    appendDb s (Except.error e) hs = hs := by
  unfold appendDb
  split <;> rfl

theorem appendMinio_error (s : SinkSettings) (e : String) (hs : List SinkKind) :
    appendMinio s (Except.error e) hs = hs := by
  unfold appendMinio
  split <;> rfl

theorem appendLoki_noUrl (s : SinkSettings) (c : Except String Unit)
    (hs : List SinkKind) (h : s.loki_url = none) : appendLoki s c hs = hs := by
  unfold appendLoki
  rw [h]
  simp

theorem appendDb_noUrl (s : SinkSettings) (c : Except String Unit)
    (hs : List SinkKind) (h : s.log_db_url = none) : appendDb s c hs = hs := by
  unfold appendDb
  rw [h]
  simp

/-- C4: a log call made after `clear_context()` — or with no prior
`set_context` at all — produces a record whose five context fields are all
present and equal to the "unknown" sentinel (Python `None`); the record
factory is total, so no exception and no missing field is possible. -/
theorem no_context_log_unknown_sentinel (U : Type) [DecidableEq U]
    (s : LogSys U) (u : U) (sa : StaticAttrs) (n : String) (lvl : Nat)
    (m : String) :
    ((emitRecord (clear_request_context s u) u sa n lvl m).2.request_id = unknownSentinel ∧
     (emitRecord (clear_request_context s u) u sa n lvl m).2.user = unknownSentinel ∧
     (emitRecord (clear_request_context s u) u sa n lvl m).2.method = unknownSentinel ∧
     (emitRecord (clear_request_context s u) u sa n lvl m).2.path = unknownSentinel ∧
     (emitRecord (clear_request_context s u) u sa n lvl m).2.ip = unknownSentinel) ∧
    ((emitRecord (initialSys U) u sa n lvl m).2.request_id = unknownSentinel ∧
     (emitRecord (initialSys U) u sa n lvl m).2.user = unknownSentinel ∧
     (emitRecord (initialSys U) u sa n lvl m).2.method = unknownSentinel ∧
     (emitRecord (initialSys U) u sa n lvl m).2.path = unknownSentinel ∧
     (emitRecord (initialSys U) u sa n lvl m).2.ip = unknownSentinel) := by
  simp [emitRecord, clear_request_context, record_factory, initialSys,
    Ctx.empty, unknownSentinel]

/-- C2, counterexample: the dispatcher queue built by `init_logging` (line
545) is created as `queue.Queue(-1)`, which in Python semantics is an
UNBOUNDED queue, contradicting "the event queue is explicitly bounded". -/
theorem dispatcher_queue_not_bounded_cex :
    mkLogQueue.isBounded = false ∧ mkLogQueue.maxsize = -1 := by
  constructor
  · rfl
  · rfl

/-- C2, amended: the dispatcher queue is created with capacity -1, i.e.
unbounded; `put_nowait` (used by `QueueHandler.enqueue`) therefore always
returns immediately with success — it never blocks, never raises
`queue.Full`, never drops an event, and never changes the capacity. -/
theorem dispatcher_queue_unbounded_enqueue (q : PyQueue Record) (r : Record)
    (h : q.maxsize = log_queue_maxsize) :
    q.isBounded = false ∧
    q.put_nowait r = Except.ok { q with items := q.items ++ [r] } := by
  have hb : q.isBounded = false := by
    unfold PyQueue.isBounded
    rw [h]
    rfl
  have hfull : q.full = false := by
    unfold PyQueue.full
    rw [h]
    simp [log_queue_maxsize]
  refine ⟨hb, ?_⟩
  unfold PyQueue.put_nowait
  rw [hfull]
  rfl

theorem dispatcher_queue_unbounded_enqueue_witness :
    mkLogQueue.isBounded = false ∧
    mkLogQueue.put_nowait sampleRecord =
      Except.ok { mkLogQueue with items := mkLogQueue.items ++ [sampleRecord] } :=
  dispatcher_queue_unbounded_enqueue mkLogQueue sampleRecord rfl

/-- C3, counterexample: with the Loki sink enabled and its URL present, a
failing `LokiHTTPHandler` constructor does NOT abort initialization — the
`except Exception: pass` block swallows the error and the sink-building phase
completes successfully with the Loki sink silently omitted. -/
theorem sink_construction_failure_not_fatal_cex :
    init_logging_outcome c3Settings
      (Except.error "requests is required for LokiHTTPHandler")
      (Except.ok ()) (Except.ok ()) = Except.ok [SinkKind.stdout] := by
  rfl

/-- C3, amended: configuration errors on the optional sinks are NOT fatal:
the sink-building phase of `init_logging` always completes, a failed
constructor for the Loki/DB/MinIO sink silently omits that sink, and a
missing URL parameter for an enabled Loki/DB sink likewise skips the sink
without error. -/
theorem sink_construction_failure_swallowed (s : SinkSettings)
    (l d m : Except String Unit) (e : String) :
    exceptOk (init_logging_outcome s l d m) = true ∧
    SinkKind.loki ∉ init_logging_handlers s (Except.error e) d m ∧
    SinkKind.db ∉ init_logging_handlers s l (Except.error e) m ∧
    SinkKind.minio ∉ init_logging_handlers s l d (Except.error e) ∧
    (s.loki_url = none → SinkKind.loki ∉ init_logging_handlers s l d m) ∧
    (s.log_db_url = none → SinkKind.db ∉ init_logging_handlers s l d m) := by
  refine ⟨rfl, ?_, ?_, ?_, ?_, ?_⟩
  · intro hmem
    unfold init_logging_handlers at hmem
    rcases mem_appendMinio hmem with h1 | h1
    · rcases mem_appendDb h1 with h2 | h2
      · rw [appendLoki_error] at h2
        exact loki_notMem_base s h2
      · cases h2
    · cases h1
  · intro hmem
    unfold init_logging_handlers at hmem
    rcases mem_appendMinio hmem with h1 | h1
    · rw [appendDb_error] at h1
      rcases mem_appendLoki h1 with h2 | h2
      · exact db_notMem_base s h2
      · cases h2
    · cases h1
  · intro hmem
    unfold init_logging_handlers at hmem
    rw [appendMinio_error] at hmem
    rcases mem_appendDb hmem with h1 | h1
    · rcases mem_appendLoki h1 with h2 | h2
      · exact minio_notMem_base s h2
      · cases h2
    · cases h1
  · intro hurl hmem
    unfold init_logging_handlers at hmem
    rcases mem_appendMinio hmem with h1 | h1
    · rcases mem_appendDb h1 with h2 | h2
      · rw [appendLoki_noUrl s l _ hurl] at h2
        exact loki_notMem_base s h2
      · cases h2
    · cases h1
  · intro hurl hmem
    unfold init_logging_handlers at hmem
    rcases mem_appendMinio hmem with h1 | h1
    · rw [appendDb_noUrl s d _ hurl] at h1
      rcases mem_appendLoki h1 with h2 | h2
      · exact db_notMem_base s h2
      · cases h2
    · cases h1

theorem sink_construction_failure_swallowed_witness :
    exceptOk (init_logging_outcome noUrlSettings (Except.ok ()) (Except.ok ())
      (Except.ok ())) = true ∧
    SinkKind.loki ∉ init_logging_handlers noUrlSettings (Except.ok ())
      (Except.ok ()) (Except.ok ()) ∧
    SinkKind.db ∉ init_logging_handlers noUrlSettings (Except.ok ())
      (Except.ok ()) (Except.ok ()) :=
  ⟨(sink_construction_failure_swallowed noUrlSettings (Except.ok ())
      (Except.ok ()) (Except.ok ()) "boom").1,
   (sink_construction_failure_swallowed noUrlSettings (Except.ok ())
      (Except.ok ()) (Except.ok ()) "boom").2.2.2.2.1 rfl,
   (sink_construction_failure_swallowed noUrlSettings (Except.ok ())
      (Except.ok ()) (Except.ok ()) "boom").2.2.2.2.2 rfl⟩

/-- C1: a record produced in execution unit `a` is a by-value snapshot of
`a`'s Context Store at record-creation time: its context fields equal `a`'s
current context, it carries none of the (fully distinct) context values of a
concurrent unit `b`, mutating or clearing `b`'s context leaves the record
produced in `a` unchanged, and mutating or clearing any unit's context
afterwards does not alter the already-created records. -/
theorem context_snapshot_isolation (U : Type) [DecidableEq U] (s : LogSys U)
    (a b c : U) (sa : StaticAttrs) (n : String) (lvl : Nat) (m : String)
    (p p2 : CtxPatch) (hab : a ≠ b)
    (hdist : Ctx.allFieldsDiffer (s.store a) (s.store b) = true) :
    ((emitRecord s a sa n lvl m).2.request_id = (s.store a).request_id ∧
     (emitRecord s a sa n lvl m).2.user = (s.store a).user ∧
     (emitRecord s a sa n lvl m).2.method = (s.store a).method ∧
     (emitRecord s a sa n lvl m).2.path = (s.store a).path ∧
     (emitRecord s a sa n lvl m).2.ip = (s.store a).ip) ∧
    (emitRecord s a sa n lvl m).2.carriesValueOf (s.store b) = false ∧
    (emitRecord (set_request_context s b p) a sa n lvl m).2 =
      (emitRecord s a sa n lvl m).2 ∧
    (emitRecord (clear_request_context s b) a sa n lvl m).2 =
      (emitRecord s a sa n lvl m).2 ∧
    (set_request_context (emitRecord s a sa n lvl m).1 c p2).records =
      (emitRecord s a sa n lvl m).1.records ∧
    (clear_request_context (emitRecord s a sa n lvl m).1 c).records =
      (emitRecord s a sa n lvl m).1.records := by
  have hdist2 : (s.store a).request_id ≠ (s.store b).request_id ∧
      (s.store a).user ≠ (s.store b).user ∧
      (s.store a).method ≠ (s.store b).method ∧
      (s.store a).path ≠ (s.store b).path ∧
      (s.store a).ip ≠ (s.store b).ip := by
    simpa [Ctx.allFieldsDiffer, Bool.and_eq_true, decide_eq_true_eq,
      and_assoc] using hdist
  obtain ⟨h1, h2, h3, h4, h5⟩ := hdist2
  refine ⟨⟨rfl, rfl, rfl, rfl, rfl⟩, ?_, ?_, ?_, rfl, rfl⟩
  · simp [emitRecord, record_factory, Record.carriesValueOf, h1, h2, h3, h4, h5]
  · simp [emitRecord, record_factory, set_request_context, hab]
  · simp [emitRecord, record_factory, clear_request_context, hab]

theorem context_snapshot_isolation_witness :
    (emitRecord wSys 0 wSA "app" 20 "hello").2.carriesValueOf (wSys.store 1) = false ∧
    (emitRecord (set_request_context wSys 1 wPatch) 0 wSA "app" 20 "hello").2 =
      (emitRecord wSys 0 wSA "app" 20 "hello").2 ∧
    (emitRecord (clear_request_context wSys 1) 0 wSA "app" 20 "hello").2 =
      (emitRecord wSys 0 wSA "app" 20 "hello").2 :=
  ⟨(context_snapshot_isolation Nat wSys 0 1 2 wSA "app" 20 "hello" wPatch wPatch
      (by decide) (by decide)).2.1,
   (context_snapshot_isolation Nat wSys 0 1 2 wSA "app" 20 "hello" wPatch wPatch
      (by decide) (by decide)).2.2.1,
   (context_snapshot_isolation Nat wSys 0 1 2 wSA "app" 20 "hello" wPatch wPatch
      (by decide) (by decide)).2.2.2.1⟩

/-- C6: an event whose formatted message or context path contains a configured
excluded substring never passes the Access File handler (which carries the
path-exclusion filter), while the Error File handler — which applies no path
exclusion — delivers that same event whenever its level is at least
WARNING. -/
theorem excluded_event_access_vs_error (raw : String) (rootLevel : Nat)
    (r : Record) (p : String)
    (hp : p ∈ parseExcludePaths raw)
    (hm : excludeHas r.msg r.path p = true) :
    (accessFileHandler rootLevel (parseExcludePaths raw)).delivers r = false ∧
    (WARNING ≤ r.levelno → errorFileHandler.delivers r = true) := by
  constructor
  · have hps : p ∈ excludeStoredPatterns (parseExcludePaths raw) :=
      mem_excludeStored hp (parseExcludePaths_truthy hp)
    have hv := excludeVerdict_false hps hm
    simp [Handler.delivers, accessFileHandler, LogFilter.check, hv]
  · intro hw
    simp [Handler.delivers, errorFileHandler, hw]

theorem excluded_event_access_vs_error_witness :
    (accessFileHandler 20 (parseExcludePaths "/health,/metrics")).delivers
      wAccessRecord = false ∧
    errorFileHandler.delivers wAccessRecord = true :=
  ⟨(excluded_event_access_vs_error "/health,/metrics" 20 wAccessRecord "/health"
      (by decide) (by decide)).1,
   (excluded_event_access_vs_error "/health,/metrics" 20 wAccessRecord "/health"
      (by decide) (by decide)).2 (by decide)⟩

/-- C7: a handler whose minimum level is WARNING never delivers an INFO
record; the code's WARNING-level sink (the error file, which has no filters)
always delivers an ERROR record; and in general a handler delivers a record
exactly when the record's level reaches the handler's level and every attached
filter passes (filters compose by conjunction). -/
theorem min_level_gating (g : Handler) (rI rE : Record)
    (hlvl : g.level = WARNING) (hI : rI.levelno = INFO)
    (hE : rE.levelno = ERROR) :
    g.delivers rI = false ∧
    (g.filters = [] → g.delivers rE = true) ∧
    errorFileHandler.delivers rE = true ∧
    (∀ h2 : Handler, ∀ r2 : Record,
      h2.delivers r2 = true ↔
        (h2.level ≤ r2.levelno ∧ ∀ f ∈ h2.filters, f.check r2 = true)) := by
  refine ⟨?_, ?_, ?_, ?_⟩
  · simp [Handler.delivers, hlvl, hI, WARNING, INFO]
  · intro hf
    simp [Handler.delivers, hlvl, hE, hf, WARNING, ERROR]
  · simp [Handler.delivers, errorFileHandler, hE, WARNING, ERROR]
  · intro h2 r2
    simp [Handler.delivers, List.all_eq_true, Bool.and_eq_true,
      decide_eq_true_eq]

theorem min_level_gating_witness :
    errorFileHandler.delivers sampleRecord = false ∧
    errorFileHandler.delivers wAccessRecord = true :=
  ⟨(min_level_gating errorFileHandler sampleRecord wAccessRecord rfl rfl rfl).1,
   (min_level_gating errorFileHandler sampleRecord wAccessRecord rfl rfl rfl).2.2.1⟩

theorem minioFlush_buf_nil (st : MinioState) (u : Except String Unit) :
    (minioFlush st u).buf = [] := by
  unfold minioFlush
  split
  · next h => exact h
  · cases u <;> rfl

theorem minioFlush_uploads_succ (st : MinioState) (u : Except String Unit)
    (h : st.buf ≠ []) : (minioFlush st u).uploads = st.uploads + 1 := by
  unfold minioFlush
  rw [if_neg h]
  cases u <;> rfl

theorem minioEmit_cases (cfg : MinioCfg) (st : MinioState) (line : String)
    (t : Bool) (u : Except String Unit) :
    (minioEmit cfg st line t u = { st with buf := st.buf ++ [line] }) ∨
    ((minioEmit cfg st line t u).uploads = st.uploads + 1 ∧
     (minioEmit cfg st line t u).buf = []) := by
  unfold minioEmit
  dsimp only
  split
  · right
    constructor
    · exact minioFlush_uploads_succ _ _ (by simp)
    · exact minioFlush_buf_nil _ _
  · left
    rfl

theorem minioEmit_uploads_le (cfg : MinioCfg) (st : MinioState) (line : String)
    (t : Bool) (u : Except String Unit) :
    st.uploads ≤ (minioEmit cfg st line t u).uploads := by
  rcases minioEmit_cases cfg st line t u with h | h
  · rw [h]
  · rw [h.1]
    omega

theorem minioEmit_buf_lt (cfg : MinioCfg) (st : MinioState) (line : String)
    (t : Bool) (u : Except String Unit) (hL : 1 ≤ cfg.flush_lines)
    (hst : st.buf.length < cfg.flush_lines) :
    (minioEmit cfg st line t u).buf.length < cfg.flush_lines := by
  unfold minioEmit
  dsimp only
  split
  · rw [minioFlush_buf_nil]
    simpa using hL
  · next hns =>
    simp [minioShouldFlush, not_or] at hns ⊢
    omega

theorem minioRun_buf_lt (cfg : MinioCfg) (hL : 1 ≤ cfg.flush_lines) :
    ∀ (evs : List MinioEvent) (st : MinioState),
      st.buf.length < cfg.flush_lines →
      (minioRun cfg st evs).buf.length < cfg.flush_lines := by
  intro evs
  induction evs with
  | nil => intro st h; exact h
  | cons e rest ih =>
    intro st h
    exact ih _ (minioEmit_buf_lt cfg st e.line e.timeTrigger e.upload hL h)

theorem minioRun_uploads_le (cfg : MinioCfg) :
    ∀ (evs : List MinioEvent) (st : MinioState),
      st.uploads ≤ (minioRun cfg st evs).uploads := by
  intro evs
  induction evs with
  | nil => intro st; exact Nat.le_refl _
  | cons e rest ih =>
    intro st
    exact Nat.le_trans (minioEmit_uploads_le cfg st e.line e.timeTrigger e.upload)
      (ih _)

theorem minioRun_no_upload_buf (cfg : MinioCfg) :
    ∀ (evs : List MinioEvent) (st : MinioState),
      (minioRun cfg st evs).uploads = st.uploads →
      (minioRun cfg st evs).buf.length = st.buf.length + evs.length := by
  intro evs
  induction evs with
  | nil => intro st _; rfl
  | cons e rest ih =>
    intro st heq
    have hstep := minioEmit_uploads_le cfg st e.line e.timeTrigger e.upload
    have hrest := minioRun_uploads_le cfg rest
      (minioEmit cfg st e.line e.timeTrigger e.upload)
    have hrun : minioRun cfg st (e :: rest) =
        minioRun cfg (minioEmit cfg st e.line e.timeTrigger e.upload) rest := rfl
    rw [hrun] at heq
    rcases minioEmit_cases cfg st e.line e.timeTrigger e.upload with hc | hc
    · have heq2 : (minioRun cfg (minioEmit cfg st e.line e.timeTrigger e.upload)
          rest).uploads = (minioEmit cfg st e.line e.timeTrigger e.upload).uploads := by
        rw [hc]
        rw [hc] at heq
        exact heq
      have := ih (minioEmit cfg st e.line e.timeTrigger e.upload) heq2
      rw [hrun, this, hc]
      simp only [List.length_append, List.length_cons, List.length_nil]
      omega
    · rw [hc.1] at hrest
      omega

/-- C5: for the MinIO batch sink with `flush_lines >= 1`, after handling any
sequence of at least `flush_lines` events starting from the empty buffer, at
least one upload has been attempted and the in-memory buffer holds fewer than
`flush_lines` lines; every flush clears the buffer whether the upload succeeds
or fails, and `close()` also flushes (clearing the buffer, attempting an
upload whenever it was non-empty). -/
theorem minio_flush_property (cfg : MinioCfg) (evs : List MinioEvent)
    (hL : 1 ≤ cfg.flush_lines) (hN : cfg.flush_lines ≤ evs.length) :
    1 ≤ (minioRun cfg MinioState.initial evs).uploads ∧
    (minioRun cfg MinioState.initial evs).buf.length < cfg.flush_lines ∧
    (∀ st : MinioState, ∀ u : Except String Unit, (minioFlush st u).buf = []) ∧
    (∀ st : MinioState, ∀ u : Except String Unit,
      (minioClose st u).buf = [] ∧
      (st.buf ≠ [] → (minioClose st u).uploads = st.uploads + 1)) := by
  have hbuf : (minioRun cfg MinioState.initial evs).buf.length < cfg.flush_lines :=
    minioRun_buf_lt cfg hL evs MinioState.initial (by simpa [MinioState.initial] using hL)
  refine ⟨?_, hbuf, ?_, ?_⟩
  · by_contra hno
    have h0 : (minioRun cfg MinioState.initial evs).uploads = 0 := by omega
    have := minioRun_no_upload_buf cfg evs MinioState.initial
      (by simpa [MinioState.initial] using h0)
    rw [this] at hbuf
    simp [MinioState.initial] at hbuf
    omega
  · intro st u
    exact minioFlush_buf_nil st u
  · intro st u
    exact ⟨minioFlush_buf_nil st u, fun h => minioFlush_uploads_succ st u h⟩

theorem minio_flush_property_witness :
    1 ≤ (minioRun wMinioCfg MinioState.initial wMinioEvs).uploads ∧
    (minioRun wMinioCfg MinioState.initial wMinioEvs).buf.length <
      wMinioCfg.flush_lines :=
  ⟨(minio_flush_property wMinioCfg wMinioEvs (by decide) (by decide)).1,
   (minio_flush_property wMinioCfg wMinioEvs (by decide) (by decide)).2.1⟩

theorem dispatchCount_all_ok :
    ∀ (sinks : List (Record → Except String Unit)) (r : Record),
      (∀ e ∈ sinks, ∀ q : Record, exceptOk (e q) = true) →
      dispatchCount sinks r = Except.ok sinks.length := by
  intro sinks
  induction sinks with
  | nil => intro r _; rfl
  | cons e rest ih =>
    intro r hall
    have he := hall e (List.mem_cons_self e rest) r
    cases hr : e r with
    | error msg =>
      rw [hr] at he
      simp [exceptOk] at he
    | ok v =>
      have hres : dispatchCount rest r = Except.ok rest.length :=
        ih r (fun e2 h2 => hall e2 (List.mem_cons_of_mem _ h2))
      simp [dispatchCount, hr, hres]

/-- C8: no sink's `emit` ever raises outward: the Loki push swallows
formatting errors, network errors and non-success HTTP responses; the DB
insert swallows insert errors; the MinIO emit swallows formatting and upload
errors — so the dispatch loop reaches every configured sink no matter which
internal operations fail. -/
theorem sink_emit_never_raises (fmt : Except String String)
    (post : String → Except String Nat) (ins : Except String Unit)
    (cfg : MinioCfg) (st : MinioState) (mfmt : Except String String)
    (t : Bool) (up : Except String Unit) (r : Record)
    (sinks : List (Record → Except String Unit))
    (hall : ∀ e ∈ sinks, ∀ q : Record, exceptOk (e q) = true) :
    lokiEmitResult fmt post = Except.ok () ∧
    dbEmitResult ins = Except.ok () ∧
    exceptOk (minioEmitResult cfg st mfmt t up) = true ∧
    dispatchCount sinks r = Except.ok sinks.length := by
  refine ⟨?_, ?_, ?_, dispatchCount_all_ok sinks r hall⟩
  · cases fmt with
    | error e => rfl
    | ok line =>
      cases hp : post line with
      | error e => simp [lokiEmitResult, hp]
      | ok status => simp [lokiEmitResult, hp]
  · cases ins <;> rfl
  · cases mfmt <;> rfl

theorem sink_emit_never_raises_witness :
    lokiEmitResult (Except.ok "line") failingPost = Except.ok () ∧
    dbEmitResult (Except.error "insert failed") = Except.ok () ∧
    exceptOk (minioEmitResult wMinioCfg MinioState.initial (Except.ok "l")
      false (Except.error "upload failed")) = true ∧
    dispatchCount [okSink] sampleRecord = Except.ok 1 :=
  sink_emit_never_raises (Except.ok "line") failingPost
    (Except.error "insert failed") wMinioCfg MinioState.initial
    (Except.ok "l") false (Except.error "upload failed") sampleRecord [okSink]
    (by
      intro e he q
      rw [List.mem_singleton] at he
      subst he
      rfl)

theorem closeAllLoop_all (f : Nat → Bool) :
    ∀ l : List Nat, closeAllLoop f l = l := by
  intro l
  induction l with
  | nil => rfl
  | cons h rest ih =>
    cases hc : closeOutcome f h <;> simp [closeAllLoop, hc, ih]

/-- C9: `init_logging` is idempotent — once the installed flag is set, any
later call is a no-op returning the same `"app"` logger, starting no second
background worker and building no new sinks; `_shutdown_logging` is a no-op
when initialization never happened, attempts `close()` on every bundled sink
exactly once (a failing close does not prevent the remaining closes, since
each close attempt is individually guarded), and a second shutdown closes
nothing again. -/
theorem pipeline_init_idempotent_shutdown_safe (s : PipelineState)
    (hs hs2 : List Nat) (f g : Nat → Bool) (h : Nat)
    (hinst : s.installed = true) (hnd : hs.Nodup) (hmem : h ∈ hs) :
    init_logging_step s hs2 = (s, "app") ∧
    init_logging_step (init_logging_step PipelineState.fresh hs).1 hs2 =
      ((init_logging_step PipelineState.fresh hs).1, "app") ∧
    (init_logging_step (init_logging_step PipelineState.fresh hs).1 hs2).1.workersStarted = 1 ∧
    shutdown_logging PipelineState.fresh f = (PipelineState.fresh, []) ∧
    (shutdown_logging (init_logging_step PipelineState.fresh hs).1 f).2 = hs ∧
    List.count h (shutdown_logging (init_logging_step PipelineState.fresh hs).1 f).2 = 1 ∧
    (shutdown_logging (shutdown_logging (init_logging_step PipelineState.fresh hs).1 f).1 g).2 = [] := by
  have hclose : (shutdown_logging (init_logging_step PipelineState.fresh hs).1 f).2 = hs := by
    simp [shutdown_logging, init_logging_step, PipelineState.fresh,
      closeAllLoop_all]
  refine ⟨?_, ?_, ?_, ?_, hclose, ?_, ?_⟩
  · simp [init_logging_step, hinst]
  · simp [init_logging_step, PipelineState.fresh]
  · simp [init_logging_step, PipelineState.fresh]
  · simp [shutdown_logging, PipelineState.fresh]
  · rw [hclose]
    exact List.count_eq_one_of_mem hnd hmem
  · simp [shutdown_logging, init_logging_step, PipelineState.fresh]

theorem pipeline_init_idempotent_shutdown_safe_witness :
    init_logging_step wPipeState [2] = (wPipeState, "app") ∧
    (shutdown_logging (init_logging_step PipelineState.fresh [0, 1]).1 allClosesFail).2 = [0, 1] ∧
    List.count 0 (shutdown_logging (init_logging_step PipelineState.fresh [0, 1]).1 allClosesFail).2 = 1 :=
  ⟨(pipeline_init_idempotent_shutdown_safe wPipeState [0, 1] [2] allClosesFail
      noClosesFail 0 rfl (by decide) (by decide)).1,
   (pipeline_init_idempotent_shutdown_safe wPipeState [0, 1] [2] allClosesFail
      noClosesFail 0 rfl (by decide) (by decide)).2.2.2.2.1,
   (pipeline_init_idempotent_shutdown_safe wPipeState [0, 1] [2] allClosesFail
      noClosesFail 0 rfl (by decide) (by decide)).2.2.2.2.2.1⟩

/-- C10, counterexample: the `ExcludePathsFilter` constructor keeps
whitespace-only ("blank") patterns — `[p for p in patterns if p]` discards
only the empty string — and a retained blank pattern " " does drop an event
whose message contains a space, refuting "discards empty/blank patterns at
construction time". -/
theorem blank_pattern_retained_cex :
    excludeStoredPatterns [" "] = [" "] ∧
    excludeFilterVerdict (excludeStoredPatterns [" "]) blankPatternRecord = false := by
  constructor
  · rfl
  · rfl

/-- C10, amended: the filter constructor discards empty (zero-length)
patterns — whitespace-only patterns are retained — so an empty string in the
configured exclusion list never causes any event to be dropped (adding "" to
the configured list leaves the verdict unchanged); and the verdict depends
only on the event's message and path attributes. -/
theorem exclude_empty_pattern_harmless (patterns : List String)
    (r r2 : Record) (hmsg : r.msg = r2.msg) (hpath : r.path = r2.path) :
    "" ∉ excludeStoredPatterns patterns ∧
    excludeFilterVerdict (excludeStoredPatterns ("" :: patterns)) r =
      excludeFilterVerdict (excludeStoredPatterns patterns) r ∧
    excludeFilterVerdict (excludeStoredPatterns patterns) r =
      excludeFilterVerdict (excludeStoredPatterns patterns) r2 := by
  have h0 : pythonTruthy "" = false := by decide
  refine ⟨?_, ?_, ?_⟩
  · intro hmem
    have ht := (List.mem_filter.mp hmem).2
    rw [h0] at ht
    cases ht
  · have hsame : excludeStoredPatterns ("" :: patterns) =
        excludeStoredPatterns patterns := by
      simp [excludeStoredPatterns, List.filter_cons, h0]
    rw [hsame]
  · unfold excludeFilterVerdict
    rw [hmsg, hpath]

theorem exclude_empty_pattern_harmless_witness :
    "" ∉ excludeStoredPatterns ["x"] ∧
    excludeFilterVerdict (excludeStoredPatterns ("" :: ["x"])) blankPatternRecord =
      excludeFilterVerdict (excludeStoredPatterns ["x"]) blankPatternRecord :=
  ⟨(exclude_empty_pattern_harmless ["x"] blankPatternRecord blankPatternRecord
      rfl rfl).1,
   (exclude_empty_pattern_harmless ["x"] blankPatternRecord blankPatternRecord
      rfl rfl).2.1⟩
